import Mathlib

/-!
Verification of the rendering core of the liquid template engine:
the built-in filter set (`src/filters.rs`) and the composite render
algorithm (`src/template.rs`), embedded shallowly.

The dynamic `Value` carries numbers of an abstract type `α` equipped with
the arithmetic operations the Rust code applies to `f32` (`FloatOps`):
the filters are defined uniformly over any such carrier, so every theorem
about their control flow and about which operation is applied holds for
the single-precision operations in particular.  A concrete carrier
(`natOps`, over `Nat`) instantiates the development for closed evaluations.
-/

set_option autoImplicit false

namespace Liquid

/-- The numeric operations the Rust code applies to its `f32` payloads,
abstracted: `add`, `sub`, `mul`, `div` are the binary arithmetic used by
`plus`, `minus`, `times`, `divided_by`; `floor`, `ceil`, `round` are the
unary rounding operations; `ofNat` is the `usize as f32` conversion used
by `size`. -/
structure FloatOps (α : Type) where
  add : α → α → α
  sub : α → α → α
  mul : α → α → α
  div : α → α → α
  floor : α → α
  ceil : α → α
  round : α → α
  ofNat : Nat → α

/-- The dynamic value union of `value.rs`: `Str` (Rust `String`),
`Num` (Rust `f32`, abstracted to `α`), `Bool`, `Array` (Rust `Vec<Value>`),
`Object` (a string-keyed map, kept as an entry list). -/
inductive Value (α : Type) where
  | Str : String → Value α
  | Num : α → Value α
  | Bool : Bool → Value α
  | Array : List (Value α) → Value α
  | Object : List (String × Value α) → Value α

/-- The error union `FilterError` of `filters.rs`: `InvalidType(String)`,
`InvalidArgumentCount(String)`, `InvalidArgument(u16, String)`. -/
inductive FilterError where
  | InvalidType : String → FilterError
  | InvalidArgumentCount : String → FilterError
  | InvalidArgument : Nat → String → FilterError
  deriving DecidableEq

/-- Type `FilterResult` of `filters.rs`: `Result<Value, FilterError>`. -/
def FilterResult (α : Type) := Except FilterError (Value α)

/-- The `Filter` function type of `filters.rs`:
`Fn(&Value, &[Value]) -> FilterResult`. -/
def FilterFn (α : Type) := Value α → List (Value α) → FilterResult α

/-- Filter `size` from `filters.rs`: `Str` maps to `Num(x.len() as f32)` — Rust
`String::len` is the length in BYTES of the UTF-8 encoding, embedded as
`String.utf8ByteSize`; `Array` and `Object` map to their element / entry
counts; anything else is `InvalidType`.  Arguments are ignored. -/
def size {α : Type} (ops : FloatOps α) (input : Value α) (_args : List (Value α)) :
    FilterResult α :=
  match input with
  | .Str x => .ok (.Num (ops.ofNat x.utf8ByteSize))
  | .Array x => .ok (.Num (ops.ofNat x.length))
  | .Object x => .ok (.Num (ops.ofNat x.length))
  | _ => .error (.InvalidType ("String, Array or Object expected"))

/-- Filter `upcase` from `filters.rs`: `Str` maps to its uppercased form
(`to_uppercase`, embedded as `String.toUpper`); anything else is
`InvalidType`.  Arguments are ignored. -/
def upcase {α : Type} (input : Value α) (_args : List (Value α)) : FilterResult α :=
  match input with
  | .Str s => .ok (.Str s.toUpper)
  | _ => .error (.InvalidType ("String expected"))

/-- Filter `minus` from `filters.rs`: the input must be `Num` (else `InvalidType`),
the first argument must be present and `Num` (else `InvalidArgument 0`),
and the result is `Num(num - x)`. -/
def minus {α : Type} (ops : FloatOps α) (input : Value α) (args : List (Value α)) :
    FilterResult α :=
  match input with
  | .Num n =>
    match args.head? with
    | some (.Num x) => .ok (.Num (ops.sub n x))
    | _ => .error (.InvalidArgument 0 ("Num expected"))
  | _ => .error (.InvalidType ("Num expected"))

/-- Filter `plus` from `filters.rs`: same validation shape as `minus`, result
`Num(num + x)`. -/
def plus {α : Type} (ops : FloatOps α) (input : Value α) (args : List (Value α)) :
    FilterResult α :=
  match input with
  | .Num n =>
    match args.head? with
    | some (.Num x) => .ok (.Num (ops.add n x))
    | _ => .error (.InvalidArgument 0 ("Num expected"))
  | _ => .error (.InvalidType ("Num expected"))

/-- Filter `times` from `filters.rs`: same validation shape as `minus`, result
`Num(num * x)`. -/
def times {α : Type} (ops : FloatOps α) (input : Value α) (args : List (Value α)) :
    FilterResult α :=
  match input with
  | .Num n =>
    match args.head? with
    | some (.Num x) => .ok (.Num (ops.mul n x))
    | _ => .error (.InvalidArgument 0 ("Num expected"))
  | _ => .error (.InvalidType ("Num expected"))

/-- Filter `divided_by` from `filters.rs`: same validation shape as `minus`,
result `Num((num / x).floor())` — the quotient is always floored, and
division is applied unconditionally (no divide-by-zero special case). -/
def divided_by {α : Type} (ops : FloatOps α) (input : Value α) (args : List (Value α)) :
    FilterResult α :=
  match input with
  | .Num n =>
    match args.head? with
    | some (.Num x) => .ok (.Num (ops.floor (ops.div n x)))
    | _ => .error (.InvalidArgument 0 ("Num expected"))
  | _ => .error (.InvalidType ("Num expected"))

/-- Filter `floor` from `filters.rs`: `Num` maps to `Num(n.floor())`; anything
else is `InvalidType`.  Arguments are ignored. -/
def floor {α : Type} (ops : FloatOps α) (input : Value α) (_args : List (Value α)) :
    FilterResult α :=
  match input with
  | .Num n => .ok (.Num (ops.floor n))
  | _ => .error (.InvalidType ("Num expected"))

/-- Filter `ceil` from `filters.rs`: `Num` maps to `Num(n.ceil())`; anything
else is `InvalidType`.  Arguments are ignored. -/
def ceil {α : Type} (ops : FloatOps α) (input : Value α) (_args : List (Value α)) :
    FilterResult α :=
  match input with
  | .Num n => .ok (.Num (ops.ceil n))
  | _ => .error (.InvalidType ("Num expected"))

/-- Filter `round` from `filters.rs`: `Num` maps to `Num(n.round())`; anything
else is `InvalidType`.  Arguments are ignored. -/
def round {α : Type} (ops : FloatOps α) (input : Value α) (_args : List (Value α)) :
    FilterResult α :=
  match input with
  | .Num n => .ok (.Num (ops.round n))
  | _ => .error (.InvalidType ("Num expected"))

/-- Filter `replace` from `filters.rs`.  The Rust code first returns
`InvalidArgumentCount` when `args.len() != 2`; that guard is realized
here as the catch-all branch of a two-element match on `args`.  Only then
is the input checked (`InvalidType` if not `Str`), then each argument in
order (`InvalidArgument 0` / `InvalidArgument 1` if not `Str`); on
success every occurrence of the first argument in the input is replaced
by the second (`str::replace`, embedded as `String.replace`). -/
def replace {α : Type} (input : Value α) (args : List (Value α)) : FilterResult α :=
  match args with
  | [a1, a2] =>
    match input with
    | .Str x =>
      match a1 with
      | .Str s1 =>
        match a2 with
        | .Str s2 => .ok (.Str (x.replace s1 s2))
        | _ => .error (.InvalidArgument 1 ("Str expected"))
      | _ => .error (.InvalidArgument 0 ("Str expected"))
    | _ => .error (.InvalidType ("String expected"))
  | _ =>
    .error (.InvalidArgumentCount (("expected 2, " ++ toString args.length) ++ " given"))

/-- A concrete carrier for closed evaluations: `Nat` with its own
arithmetic standing in for the abstract float operations. -/
def natOps : FloatOps Nat where
  add := Nat.add
  sub := Nat.sub
  mul := Nat.mul
  div := Nat.div
  floor := id
  ceil := id
  round := id
  ofNat := id

/-- Whether a value is the `Str` variant. -/
def valueIsStr {α : Type} : Value α → Bool
  | .Str _ => true
  | _ => false

/-- Whether a value is the `Num` variant. -/
def valueIsNum {α : Type} : Value α → Bool
  | .Num _ => true
  | _ => false

/-- Whether a value is the `Array` variant. -/
def valueIsArray {α : Type} : Value α → Bool
  | .Array _ => true
  | _ => false

/-- Whether a value is the `Object` variant. -/
def valueIsObject {α : Type} : Value α → Bool
  | .Object _ => true
  | _ => false

/-- Whether a filter result is an `InvalidType` failure. -/
def isInvalidTypeResult {α : Type} : FilterResult α → Bool
  | .error (.InvalidType _) => true
  | _ => false


/-- Modelled from the spec: `context.rs` is not part of the sources, so the
`Context` is embedded from §3/§6 of the spec as exactly the surface the
composite uses — a filter-registration sink (a name-keyed table where the
last registration for a name wins) and a read-only boolean interrupt
query.  Other context state (variable scope) never touches the composite
and is omitted. -/
structure Context (α : Type) where
  filters : List (String × FilterFn α)
  interrupted : Bool

/-- Modelled from the spec: `Context::add_filter` "inserts or overwrites
an entry (last registration for a name wins)" — realized by prepending,
with lookup taking the first (most recent) match. -/
def Context.add_filter {α : Type} (c : Context α) (name : String) (f : FilterFn α) :
    Context α :=
  { c with filters := (name, f) :: c.filters }

/-- Modelled from the spec: filter lookup by name in the registry; the
first (most recently registered) entry for a name wins. -/
def Context.lookupFilter {α : Type} (c : Context α) (name : String) :
    Option (FilterFn α) :=
  c.filters.lookup name

/-- Modelled from the spec: a child `Renderable`
(`render(&self, context: &mut Context) -> Result<Option<String>>`),
embedded as a function from the context to either an error `ε` or an
optional string output together with the updated context. -/
def Child (α ε : Type) := Context α → Except ε (Option String × Context α)

/-- Structure `Template` from `template.rs`: an ordered sequence of child
renderables. -/
structure Template (α ε : Type) where
  elements : List (Child α ε)

/-- The filter-registration block at the top of `Template::render`: the
ten `context.add_filter` calls, in source order (`size`, `upcase`,
`minus`, `plus`, `times`, `divided_by`, `ceil`, `floor`, `round`,
`replace`). -/
def registerAll {α : Type} (ops : FloatOps α) (c : Context α) : Context α :=
  ((((((((((c.add_filter ("size") (size ops)).add_filter
      ("upcase") upcase).add_filter
      ("minus") (minus ops)).add_filter
      ("plus") (plus ops)).add_filter
      ("times") (times ops)).add_filter
      ("divided_by") (divided_by ops)).add_filter
      ("ceil") (ceil ops)).add_filter
      ("floor") (floor ops)).add_filter
      ("round") (round ops)).add_filter
      ("replace") replace)

/-- The child loop of `Template::render`: for each element in order,
render it (`try!` propagates a failure immediately), append a `Some`
output to the buffer, and after each child — whatever its output — stop
if the context reports an interrupt. -/
def renderElements {α ε : Type} (els : List (Child α ε)) (c : Context α)
    (buf : String) : Except ε (String × Context α) :=
  match els with
  | [] => .ok (buf, c)
  | el :: rest =>
    match el c with
    | .error e => .error e
    | .ok (out, c') =>
      let buf' :=
        match out with
        | some x => buf ++ x
        | none => buf
      if c'.interrupted then .ok (buf', c')
      else renderElements rest c' buf'

/-- Function `Template::render` from `template.rs`: register the ten built-in
filters into the context, run the child loop on an empty buffer, and
wrap the accumulated buffer as `Ok(Some(buf))` (a failure propagates
unchanged). -/
def Template.render {α ε : Type} (t : Template α ε) (ops : FloatOps α)
    (c : Context α) : Except ε (Option String × Context α) :=
  match renderElements t.elements (registerAll ops c) ("") with
  | .error e => .error e
  | .ok (buf, c') => .ok (some buf, c')

/-- A fresh context with no filters and no pending interrupt. -/
def emptyCtx : Context Nat := ⟨[], false⟩

/-- A pre-interrupted context: the interrupt flag is already set before
any render begins. -/
def interruptedCtx : Context Nat := ⟨[], true⟩

/-- A child that outputs `"a"` and leaves the context unchanged. -/
def childA : Child Nat Unit := fun c => .ok (some ("a"), c)

/-- A child that outputs `"b"` and sets the interrupt flag. -/
def childB : Child Nat Unit := fun c =>
  .ok (some ("b"), { c with interrupted := true })

/-- A child that outputs `"c"` and leaves the context unchanged. -/
def childC : Child Nat Unit := fun c => .ok (some ("c"), c)

/-- A child whose render fails. -/
def childErr : Child Nat Unit := fun _ => .error ()


/-- If the child loop runs a prefix to completion without the interrupt
flag being observed (the final context reports no interrupt), then the
loop over the prefix followed by more children continues from the
prefix's final state and buffer. -/
theorem renderElements_append {α ε : Type} (first more : List (Child α ε)) :
    ∀ (c : Context α) (buf b : String) (c₁ : Context α),
      renderElements first c buf = .ok (b, c₁) → c₁.interrupted = false →
      renderElements (first ++ more) c buf = renderElements more c₁ b := by
  induction first with
  | nil =>
    intro c buf b c₁ h1 h2
    simp only [renderElements, Except.ok.injEq, Prod.mk.injEq] at h1
    obtain ⟨rfl, rfl⟩ := h1
    rfl
  | cons el rest ih =>
    intro c buf b c₁ h1 h2
    rw [List.cons_append]
    simp only [renderElements] at h1 ⊢
    cases hel : el c with
    | error e => simp [hel] at h1
    | ok p =>
      obtain ⟨out, c'⟩ := p
      simp only [hel] at h1 ⊢
      cases hint : c'.interrupted with
      | true =>
        simp only [hint, if_true, Except.ok.injEq, Prod.mk.injEq] at h1
        obtain ⟨-, rfl⟩ := h1
        rw [hint] at h2
        exact absurd h2 (by simp)
      | false =>
        simp only [hint, if_false] at h1 ⊢
        exact ih c' _ b c₁ h1 h2

/-- If the child loop over `x :: first` succeeds and its final context
reports an interrupt, then appending further children changes nothing:
the loop over `x :: (first ++ more)` stops at the same point with the
same buffer and context. -/
theorem renderElements_interrupt_stop {α ε : Type} (first more : List (Child α ε)) :
    ∀ (x : Child α ε) (c : Context α) (buf b : String) (c₁ : Context α),
      renderElements (x :: first) c buf = .ok (b, c₁) → c₁.interrupted = true →
      renderElements (x :: (first ++ more)) c buf = .ok (b, c₁) := by
  induction first with
  | nil =>
    intro x c buf b c₁ h1 h2
    simp only [renderElements] at h1 ⊢
    cases hel : x c with
    | error e => simp [hel] at h1
    | ok p =>
      obtain ⟨out, c'⟩ := p
      simp only [hel] at h1 ⊢
      cases hint : c'.interrupted with
      | true =>
        simpa only [hint, if_true] using h1
      | false =>
        simp only [hint, if_false, renderElements, Except.ok.injEq,
          Prod.mk.injEq] at h1
        obtain ⟨-, rfl⟩ := h1
        rw [hint] at h2
        exact absurd h2 (by simp)
  | cons y rest ih =>
    intro x c buf b c₁ h1 h2
    simp only [renderElements] at h1 ⊢
    cases hel : x c with
    | error e => simp [hel] at h1
    | ok p =>
      obtain ⟨out, c'⟩ := p
      simp only [hel] at h1 ⊢
      cases hint : c'.interrupted with
      | true =>
        simpa only [hint, if_true] using h1
      | false =>
        simp only [hint, if_false] at h1 ⊢
        exact ih y c' _ b c₁ h1 h2

/-- C1: if rendering the children up to and including some child succeeds
with accumulated output `b` and leaves the context reporting an
interrupt, then rendering the template extended by any further children
gives exactly the same result: iteration stops immediately, the later
children are never rendered (the result does not depend on them), and
the output is the concatenation accumulated so far. -/
theorem c1_interrupt_stops_iteration {α ε : Type} (ops : FloatOps α)
    (x : Child α ε) (first rest : List (Child α ε)) (c : Context α)
    (b : String) (c₁ : Context α)
    (h1 : (Template.mk (x :: first)).render ops c = .ok (some b, c₁))
    (h2 : c₁.interrupted = true) :
    (Template.mk (x :: first ++ rest)).render ops c = .ok (some b, c₁) := by
  simp only [Template.render] at h1 ⊢
  cases hre : renderElements (x :: first) (registerAll ops c) ("") with
  | error e => simp [hre] at h1
  | ok p =>
    obtain ⟨buf, c'⟩ := p
    simp only [hre, Except.ok.injEq, Prod.mk.injEq, Option.some.injEq] at h1
    obtain ⟨rfl, rfl⟩ := h1
    have hstop := renderElements_interrupt_stop first rest x
      (registerAll ops c) ("") _ _ hre h2
    simp [hstop]

/-- C1 witness: children producing `"a"`, then `"b"` while setting the
interrupt, then a child that would fail if it were ever invoked — the
render is `"ab"` and the third child is never reached. -/
theorem c1_witness :
    (Template.mk [childA, childB, childErr]).render natOps emptyCtx =
      .ok (some ("ab"), { registerAll natOps emptyCtx with interrupted := true }) :=
  c1_interrupt_stops_iteration natOps childA [childB] [childErr] emptyCtx
    ("ab") ({ registerAll natOps emptyCtx with interrupted := true }) rfl rfl

/-- C2: if the child loop reaches a child whose render fails (the
children before it all succeeded with no interrupt observed), the whole
`Template.render` returns that same failure unchanged — the accumulated
buffer is discarded and the children after the failing one never affect
the result. -/
theorem c2_child_failure_propagates {α ε : Type} (ops : FloatOps α)
    (first : List (Child α ε)) (x : Child α ε) (rest : List (Child α ε))
    (c : Context α) (b : String) (c₁ : Context α) (e : ε)
    (h1 : renderElements first (registerAll ops c) ("") = .ok (b, c₁))
    (h2 : c₁.interrupted = false)
    (h3 : x c₁ = .error e) :
    (Template.mk (first ++ x :: rest)).render ops c = .error e := by
  simp only [Template.render]
  rw [renderElements_append first (x :: rest) (registerAll ops c) ("") b c₁ h1 h2]
  simp [renderElements, h3]

/-- C2 witness: a child producing `"a"`, then a failing child, then a
further child — the render is exactly the failure, no partial `"a"`. -/
theorem c2_witness :
    (Template.mk [childA, childErr, childC]).render natOps emptyCtx = .error () :=
  c2_child_failure_propagates natOps [childA] childErr [childC] emptyCtx
    ("a") (registerAll natOps emptyCtx) () rfl rfl rfl

/-- C3: even when the context's interrupt flag is already set before the
render call begins, the first child is still rendered — its failure
becomes the render's failure, and its output becomes the render's output
(the interrupt is only examined after a child renders, never before). -/
theorem c3_first_child_renders_despite_interrupt {α ε : Type}
    (ops : FloatOps α) (x : Child α ε) (rest : List (Child α ε))
    (c : Context α) (_h : c.interrupted = true) :
    (∀ e : ε, x (registerAll ops c) = .error e →
      (Template.mk (x :: rest)).render ops c = .error e) ∧
    (∀ (s : String) (c₁ : Context α), x (registerAll ops c) = .ok (some s, c₁) →
      c₁.interrupted = true →
      (Template.mk (x :: rest)).render ops c = .ok (some s, c₁)) := by
  refine ⟨fun e he => ?_, fun s c₁ hx hint => ?_⟩
  · simp [Template.render, renderElements, he]
  · simp [Template.render, renderElements, hx, hint]

/-- C3 witness: with the interrupt flag set before the call, a template
whose first child produces `"a"` still renders it and returns `"a"`. -/
theorem c3_witness :
    (Template.mk [childA, childC]).render natOps interruptedCtx =
      .ok (some ("a"), registerAll natOps interruptedCtx) :=
  (c3_first_child_renders_despite_interrupt natOps childA [childC]
    interruptedCtx rfl).2 ("a") (registerAll natOps interruptedCtx) rfl rfl

/-- C8: every call to `Template.render` runs its children against the
context produced by registering the full built-in filter set (the first
conjunct), and in that context each of the ten names resolves to the
corresponding built-in filter whatever entries — including same-named
ones — the incoming context already held (the remaining conjuncts):
registration happens on every render call and overwrites. -/
theorem c8_filters_registered_every_render {α ε : Type} (ops : FloatOps α)
    (t : Template α ε) (c : Context α) :
    (t.render ops c =
      match renderElements t.elements (registerAll ops c) ("") with
      | .error e => .error e
      | .ok (buf, c') => .ok (some buf, c')) ∧
    (registerAll ops c).lookupFilter ("size") = some (size ops) ∧
    (registerAll ops c).lookupFilter ("upcase") = some upcase ∧
    (registerAll ops c).lookupFilter ("minus") = some (minus ops) ∧
    (registerAll ops c).lookupFilter ("plus") = some (plus ops) ∧
    (registerAll ops c).lookupFilter ("times") = some (times ops) ∧
    (registerAll ops c).lookupFilter ("divided_by") = some (divided_by ops) ∧
    (registerAll ops c).lookupFilter ("ceil") = some (ceil ops) ∧
    (registerAll ops c).lookupFilter ("floor") = some (floor ops) ∧
    (registerAll ops c).lookupFilter ("round") = some (round ops) ∧
    (registerAll ops c).lookupFilter ("replace") = some replace :=
  ⟨rfl, rfl, rfl, rfl, rfl, rfl, rfl, rfl, rfl, rfl, rfl⟩

/-- C9: `Template.render` never produces the "no output" result — every
successful render carries a present string — and a template with zero
children renders successfully to the empty string. -/
theorem c9_render_output_always_present {α ε : Type} (ops : FloatOps α)
    (t : Template α ε) (c : Context α) :
    (∀ r : Option String × Context α, t.render ops c = .ok r →
      r.1.isSome = true) ∧
    (Template.mk ([] : List (Child α ε))).render ops c =
      .ok (some (""), registerAll ops c) := by
  constructor
  · intro r hr
    simp only [Template.render] at hr
    cases hre : renderElements t.elements (registerAll ops c) ("") with
    | error e => simp [hre] at hr
    | ok p =>
      obtain ⟨buf, c'⟩ := p
      simp only [hre, Except.ok.injEq] at hr
      subst hr
      rfl
  · rfl

/-- C9 witness: a successful render of `[childA]` indeed carries a
present string, and the zero-child template renders to `""`. -/
theorem c9_witness :
    ((some ("a") : Option String), registerAll natOps emptyCtx).1.isSome = true ∧
    (Template.mk ([] : List (Child Nat Unit))).render natOps emptyCtx =
      .ok (some (""), registerAll natOps emptyCtx) :=
  ⟨(c9_render_output_always_present natOps (Template.mk [childA]) emptyCtx).1
      (some ("a"), registerAll natOps emptyCtx) rfl,
    (c9_render_output_always_present natOps
      (Template.mk ([] : List (Child Nat Unit))) emptyCtx).2⟩

/-- C4 (amended): for every `Str` input the `size` filter returns `Num` of
the UTF-8 BYTE length of the string (Rust `String::len`), not its
character count; for every `Array` input its element count, for every
`Object` input its entry count, all regardless of the argument list; and
`InvalidType` for every other variant. -/
theorem c4_size_amended {α : Type} (ops : FloatOps α) :
    (∀ (s : String) (args : List (Value α)),
      size ops (.Str s) args = .ok (.Num (ops.ofNat s.utf8ByteSize))) ∧
    (∀ (l : List (Value α)) (args : List (Value α)),
      size ops (.Array l) args = .ok (.Num (ops.ofNat l.length))) ∧
    (∀ (o : List (String × Value α)) (args : List (Value α)),
      size ops (.Object o) args = .ok (.Num (ops.ofNat o.length))) ∧
    (∀ (n : α) (args : List (Value α)),
      size ops (.Num n) args =
        .error (.InvalidType ("String, Array or Object expected"))) ∧
    (∀ (b : Bool) (args : List (Value α)),
      size ops (.Bool b) args =
        .error (.InvalidType ("String, Array or Object expected"))) :=
  ⟨fun _ _ => rfl, fun _ _ => rfl, fun _ _ => rfl, fun _ _ => rfl,
    fun _ _ => rfl⟩

/-- C4 counterexample: on the one-character string `"é"` (whose UTF-8
encoding is two bytes) `size` returns `Num 2`, while the character count
of the input is `1`, and `2 = 1` is false: `size` does not return the
character count. -/
theorem c4_counterexample :
    size natOps (.Str ("é")) [] = .ok (.Num (2 : Nat)) ∧
    ("é").length = 1 ∧ decide ((2 : Nat) = 1) = false :=
  ⟨rfl, rfl, rfl⟩

/-- C5: for every `Num` input and every argument list headed by a `Num`,
`divided_by` returns `Num` of the floor of the quotient — the floor is
applied to whatever the division operation yields, with no special
handling of a zero divisor (the equation holds for every divisor
uniformly). -/
theorem c5_divided_by_floors_quotient {α : Type} (ops : FloatOps α)
    (n m : α) (rest : List (Value α)) :
    divided_by ops (.Num n) (.Num m :: rest) =
      .ok (.Num (ops.floor (ops.div n m))) :=
  rfl

/-- C6 (amended): calling any of the ten built-in filters with an input
of a variant it does not accept yields `InvalidType` — except `replace`,
which checks argument arity first: with a wrong-variant input it yields
`InvalidType` only when exactly two arguments are supplied, and
`InvalidArgumentCount` otherwise. -/
theorem c6_wrong_variant_errors {α : Type} (ops : FloatOps α) :
    (∀ (v : Value α) (args : List (Value α)),
      (valueIsStr v || valueIsArray v || valueIsObject v) = false →
      size ops v args =
        .error (.InvalidType ("String, Array or Object expected"))) ∧
    (∀ (v : Value α) (args : List (Value α)), valueIsStr v = false →
      upcase v args = .error (.InvalidType ("String expected"))) ∧
    (∀ (v : Value α) (args : List (Value α)), valueIsNum v = false →
      minus ops v args = .error (.InvalidType ("Num expected"))) ∧
    (∀ (v : Value α) (args : List (Value α)), valueIsNum v = false →
      plus ops v args = .error (.InvalidType ("Num expected"))) ∧
    (∀ (v : Value α) (args : List (Value α)), valueIsNum v = false →
      times ops v args = .error (.InvalidType ("Num expected"))) ∧
    (∀ (v : Value α) (args : List (Value α)), valueIsNum v = false →
      divided_by ops v args = .error (.InvalidType ("Num expected"))) ∧
    (∀ (v : Value α) (args : List (Value α)), valueIsNum v = false →
      floor ops v args = .error (.InvalidType ("Num expected"))) ∧
    (∀ (v : Value α) (args : List (Value α)), valueIsNum v = false →
      ceil ops v args = .error (.InvalidType ("Num expected"))) ∧
    (∀ (v : Value α) (args : List (Value α)), valueIsNum v = false →
      round ops v args = .error (.InvalidType ("Num expected"))) ∧
    (∀ (v : Value α) (a1 a2 : Value α), valueIsStr v = false →
      replace v [a1, a2] = .error (.InvalidType ("String expected"))) ∧
    (∀ (v : Value α) (args : List (Value α)), args.length ≠ 2 →
      replace v args =
        .error (.InvalidArgumentCount
          (("expected 2, " ++ toString args.length) ++ " given"))) := by
  refine ⟨fun v args h => ?_, fun v args h => ?_, fun v args h => ?_,
    fun v args h => ?_, fun v args h => ?_, fun v args h => ?_,
    fun v args h => ?_, fun v args h => ?_, fun v args h => ?_,
    fun v a1 a2 h => ?_, fun v args h => ?_⟩
  · cases v <;> simp_all [valueIsStr, valueIsArray, valueIsObject, size]
  · cases v <;> simp_all [valueIsStr, upcase]
  · cases v <;> simp_all [valueIsNum, minus]
  · cases v <;> simp_all [valueIsNum, plus]
  · cases v <;> simp_all [valueIsNum, times]
  · cases v <;> simp_all [valueIsNum, divided_by]
  · cases v <;> simp_all [valueIsNum, floor]
  · cases v <;> simp_all [valueIsNum, ceil]
  · cases v <;> simp_all [valueIsNum, round]
  · cases v <;> simp_all [valueIsStr, replace]
  · cases args with
    | nil => rfl
    | cons a t =>
      cases t with
      | nil => rfl
      | cons b t2 =>
        cases t2 with
        | nil => exact absurd rfl h
        | cons d t3 => rfl

/-- C6 counterexample: `replace` applied to a wrong-variant (`Num`)
input with an empty argument list returns `InvalidArgumentCount`, not
`InvalidType`. -/
theorem c6_counterexample :
    replace (α := Nat) (.Num 1) [] =
      .error (.InvalidArgumentCount ("expected 2, 0 given")) ∧
    isInvalidTypeResult (replace (α := Nat) (.Num 1) []) = false :=
  ⟨rfl, rfl⟩

/-- C6 witness: concrete wrong-variant inputs — `size` on a `Bool`,
`times` on a `Bool`, `replace` on a `Num` with two arguments all give
`InvalidType`; `replace` on a `Num` with zero arguments gives
`InvalidArgumentCount`. -/
theorem c6_witness :
    size natOps (.Bool true) [] =
      .error (.InvalidType ("String, Array or Object expected")) ∧
    times natOps (.Bool true) [.Num 8] =
      .error (.InvalidType ("Num expected")) ∧
    replace (α := Nat) (.Num 1) [.Num 2, .Num 3] =
      .error (.InvalidType ("String expected")) ∧
    replace (α := Nat) (.Num 1) [] =
      .error (.InvalidArgumentCount ("expected 2, 0 given")) :=
  ⟨(c6_wrong_variant_errors natOps).1 (.Bool true) [] rfl,
    (c6_wrong_variant_errors natOps).2.2.2.2.1 (.Bool true) [.Num 8] rfl,
    (c6_wrong_variant_errors natOps).2.2.2.2.2.2.2.2.2.1 (.Num 1) (.Num 2)
      (.Num 3) rfl,
    (c6_wrong_variant_errors natOps).2.2.2.2.2.2.2.2.2.2 (.Num 1) []
      (by decide)⟩

/-- C7: every filter except `replace` tolerates extra arguments: the
unary filters give the same result on any argument list as on the empty
one, and the arithmetic filters give the same result on `a :: rest` as
on `[a]` alone, for every input. -/
theorem c7_extra_arguments_ignored {α : Type} (ops : FloatOps α) :
    (∀ (v : Value α) (args : List (Value α)), size ops v args = size ops v []) ∧
    (∀ (v : Value α) (args : List (Value α)), upcase v args = upcase v []) ∧
    (∀ (v : Value α) (args : List (Value α)), floor ops v args = floor ops v []) ∧
    (∀ (v : Value α) (args : List (Value α)), ceil ops v args = ceil ops v []) ∧
    (∀ (v : Value α) (args : List (Value α)), round ops v args = round ops v []) ∧
    (∀ (v a : Value α) (rest : List (Value α)),
      minus ops v (a :: rest) = minus ops v [a]) ∧
    (∀ (v a : Value α) (rest : List (Value α)),
      plus ops v (a :: rest) = plus ops v [a]) ∧
    (∀ (v a : Value α) (rest : List (Value α)),
      times ops v (a :: rest) = times ops v [a]) ∧
    (∀ (v a : Value α) (rest : List (Value α)),
      divided_by ops v (a :: rest) = divided_by ops v [a]) :=
  ⟨fun _ _ => rfl, fun _ _ => rfl, fun _ _ => rfl, fun _ _ => rfl,
    fun _ _ => rfl,
    fun v a rest => by cases v <;> rfl,
    fun v a rest => by cases v <;> rfl,
    fun v a rest => by cases v <;> rfl,
    fun v a rest => by cases v <;> rfl⟩

/-- C10: `replace` checks the argument count before the input type: for
every input of any variant and every argument list whose length is not
2, it returns `InvalidArgumentCount` (with the count interpolated into
the message), never `InvalidType` or `InvalidArgument`. -/
theorem c10_replace_checks_arity_first {α : Type} (v : Value α)
    (args : List (Value α)) (h : args.length ≠ 2) :
    replace v args =
      .error (.InvalidArgumentCount
        (("expected 2, " ++ toString args.length) ++ " given")) := by
  cases args with
  | nil => rfl
  | cons a t =>
    cases t with
    | nil => rfl
    | cons b t2 =>
      cases t2 with
      | nil => exact absurd rfl h
      | cons d t3 => rfl

/-- C10 witness: `replace` on a `Bool` input with a single argument
returns `InvalidArgumentCount`, not `InvalidType`. -/
theorem c10_witness :
    replace (α := Nat) (.Bool true) [.Str ("x")] =
      .error (.InvalidArgumentCount ("expected 2, 1 given")) :=
  c10_replace_checks_arity_first (.Bool true) [.Str ("x")] (by decide)

end Liquid
